import Mathlib

/-!
Verification of the LS-8 emulator core (`src/project/ls8/cpu.js`).

The JavaScript `CPU` class is shallowly embedded as a Lean structure plus
pure state-transforming functions.  JavaScript numbers are modelled as `Int`
(all arithmetic in the program is integer-valued and far below 2^53, so JS
number arithmetic coincides with exact integer arithmetic), and the
JavaScript bitwise operators `|`, `&`, `~`, `<<`, `>>` are modelled by
`Int.lor`, `Int.land`, `Int.lnot` and the `Int` shift instances, which agree
with the 32-bit JS semantics on all values the program manipulates.

The RAM collaborator (`this.ram`, an external module) is modelled as a total
function `Int → Int` carried inside the state; `read` is application and
`write` is pointwise update.  The register array `this.reg` is likewise a
total function `Int → Int` (JS indices 0..7 are the ones ever used); the
special properties `reg.PC`, `reg.IR`, `reg.FL` that the source stores on
the array object are separate fields, exactly as they are distinct from the
numeric indices in JS.  The interval clock started by `startClock` is
modelled by a Boolean `running` field which `stopClock` sets to `false`;
`console.log` and `console.error` are modelled as append-only logs.

A JavaScript runtime exception is modelled explicitly: `tick` returns the
resulting state together with an optional `JsError`.  This matters because
the source's `tick` contains `this.reg.PC = nextPC` where the declared
variable is spelled `nextPc`, so the branch taken when a handler returns a
jump target reads an undeclared identifier and throws a `ReferenceError`.
-/

namespace LS8

/-- Opcode constant `HLT = 0b00000001` from cpu.js. -/
def HLT : Int := 0b00000001

/-- Opcode constant `ADD = 0b10101000` from cpu.js. -/
def ADD : Int := 0b10101000

/-- Opcode constant `LDI = 0b10011001` from cpu.js. -/
def LDI : Int := 0b10011001

/-- Opcode constant `MUL = 0b10101010` from cpu.js. -/
def MUL : Int := 0b10101010

/-- Opcode constant `PRN = 0b01000011` from cpu.js. -/
def PRN : Int := 0b01000011

/-- Opcode constant `PUSH = 0b01001101` from cpu.js. -/
def PUSH : Int := 0b01001101

/-- Opcode constant `POP = 0b01001100` from cpu.js. -/
def POP : Int := 0b01001100

/-- Opcode constant `CMP = 0b10100000` from cpu.js. -/
def CMP : Int := 0b10100000

/-- Opcode constant `JEQ = 0b01010001` from cpu.js. -/
def JEQ : Int := 0b01010001

/-- Opcode constant `JMP = 0b01010000` from cpu.js. -/
def JMP : Int := 0b01010000

/-- Opcode constant `JNE = 0b01010010` from cpu.js. -/
def JNE : Int := 0b01010010

/-- `SP = 0x07`: index of the register used as stack pointer. -/
def SP : Int := 0x07

/-- Flag mask `FL_EQ = 0b00000001`. -/
def FL_EQ : Int := 0b00000001

/-- Flag mask `FL_GT = 0b00000010`. -/
def FL_GT : Int := 0b00000010

/-- Flag mask `FL_LT = 0b00000100`. -/
def FL_LT : Int := 0b00000100

/-- Pointwise update of a total function, used for `this.reg[i] = v` and
`this.ram.write(a, v)`. -/
def updateFn (f : Int → Int) (k v : Int) : Int → Int :=
  fun i => if i = k then v else f i

/-- The possible JavaScript runtime errors of the embedded code.  The only
one the core can raise is the `ReferenceError` caused by the undeclared
identifier `nextPC` in `tick` (the declared variable is `nextPc`). -/
inductive JsError where
  | referenceErrorNextPC
  deriving DecidableEq

/-- State of the `CPU` class instance: the RAM handle, the register array,
the special registers stored on it (`reg.PC`, `reg.IR`, `reg.FL`), the
clock (`running`), and the `console.log` / `console.error` logs. -/
structure CPU where
  ram : Int → Int
  reg : Int → Int
  PC : Int
  IR : Int
  FL : Int
  running : Bool
  output : List Int
  errLog : List (String × Int)

/-- The `CPU` constructor: `reg = new Array(8).fill(0)`, `reg.PC = 0`,
`reg.IR = 0`, `reg.FL = 0`.  The clock is modelled as already running
(`startClock` is invoked by the external harness); the logs start empty. -/
def construct (ram : Int → Int) : CPU :=
  { ram := ram
    reg := fun _ => 0
    PC := 0
    IR := 0
    FL := 0
    running := true
    output := []
    errLog := [] }

/-- `stopClock()`: stops the interval clock. -/
def stopClock (s : CPU) : CPU :=
  { s with running := false }

/-- `setFlag(flag, value)`: `FL = FL | flag` when value is truthy, else
`FL = FL & ~flag`. -/
def setFlag (s : CPU) (flag : Int) (value : Bool) : CPU :=
  if value then { s with FL := Int.lor s.FL flag }
  else { s with FL := Int.land s.FL (Int.lnot flag) }

/-- `getFlag(f)`: `(FL & (1 << f)) >> f`.  Note the argument is used as a
bit position, although every call site passes a flag mask. -/
def getFlag (s : CPU) (f : Int) : Int :=
  (Int.land s.FL ((1 : Int) <<< f)) >>> f

/-- `alu(op, regA, regB)`: the switch over the operation name.  Unlisted
operations fall through the switch and change nothing. -/
def alu (s : CPU) (op : String) (regA regB : Int) : CPU :=
  match op with
  | "MUL" => { s with reg := updateFn s.reg regA (s.reg regA * s.reg regB) }
  | "ADD" => { s with reg := updateFn s.reg regA (s.reg regA + s.reg regB) }
  | "AND" => { s with reg := updateFn s.reg regA (Int.land (s.reg regA) (s.reg regB)) }
  | "CMP" =>
      let s1 := setFlag s FL_EQ (decide (s.reg regA = s.reg regB))
      let s2 := setFlag s1 FL_GT (decide (s.reg regA > s.reg regB))
      setFlag s2 FL_LT (decide (s.reg regA < s.reg regB))
  | _ => s

/-- `pushHelper(value)`: decrement `reg[SP]`, then write `value` at the new
`reg[SP]`. -/
def pushHelper (s : CPU) (value : Int) : CPU :=
  let s1 := { s with reg := updateFn s.reg SP (s.reg SP - 1) }
  { s1 with ram := updateFn s1.ram (s1.reg SP) value }

/-- `popHelper()`: read `ram[reg[SP]]`, then increment `reg[SP]`; returns
the state together with the value read. -/
def popHelper (s : CPU) : CPU × Int :=
  let val := s.ram (s.reg SP)
  ({ s with reg := updateFn s.reg SP (s.reg SP + 1) }, val)

namespace CPU

/-- Handler `ADD(regA, regB)`. -/
def ADD (s : CPU) (regA regB : Int) : CPU × Option Int :=
  (alu s "ADD" regA regB, none)

/-- Handler `CALL(regNum)`: push `PC + 2`, then return `reg[regNum]` (read
after the push) as the new PC. -/
def CALL (s : CPU) (regNum : Int) : CPU × Option Int :=
  let s1 := pushHelper s (s.PC + 2)
  (s1, some (s1.reg regNum))

/-- Handler `CMP(regA, regB)`. -/
def CMP (s : CPU) (regA regB : Int) : CPU × Option Int :=
  (alu s "CMP" regA regB, none)

/-- Handler `HLT()`. -/
def HLT (s : CPU) : CPU × Option Int :=
  (stopClock s, none)

/-- Handler `JEQ(regNum)`: returns `reg[regNum]` when `getFlag(FL_EQ)` is
truthy, else returns undefined. -/
def JEQ (s : CPU) (regNum : Int) : CPU × Option Int :=
  if getFlag s FL_EQ ≠ 0 then (s, some (s.reg regNum)) else (s, none)

/-- Handler `JMP(regNum)`. -/
def JMP (s : CPU) (regNum : Int) : CPU × Option Int :=
  (s, some (s.reg regNum))

/-- Handler `JNE(regNum)`: returns `reg[regNum]` when `getFlag(FL_EQ)` is
falsy. -/
def JNE (s : CPU) (regNum : Int) : CPU × Option Int :=
  if getFlag s FL_EQ = 0 then (s, some (s.reg regNum)) else (s, none)

/-- Handler `LDI(regNum, value)`. -/
def LDI (s : CPU) (regNum value : Int) : CPU × Option Int :=
  ({ s with reg := updateFn s.reg regNum value }, none)

/-- Handler `MUL(regA, regB)`. -/
def MUL (s : CPU) (regA regB : Int) : CPU × Option Int :=
  (alu s "MUL" regA regB, none)

/-- Handler `POP(regNum)`. -/
def POP (s : CPU) (regNum : Int) : CPU × Option Int :=
  let r := popHelper s
  ({ r.1 with reg := updateFn r.1.reg regNum r.2 }, none)

/-- Handler `PRN(regA)`: `console.log(this.reg[regA])`. -/
def PRN (s : CPU) (regA : Int) : CPU × Option Int :=
  ({ s with output := s.output ++ [s.reg regA] }, none)

/-- Handler `PUSH(regNum)`. -/
def PUSH (s : CPU) (regNum : Int) : CPU × Option Int :=
  let value := s.reg regNum
  (pushHelper s value, none)

end CPU

/-- The twelve instruction-handler methods of the `CPU` class. -/
inductive Handler where
  | ADD | CALL | CMP | HLT | JEQ | JMP | JNE | LDI | MUL | POP | PRN | PUSH
  deriving DecidableEq

/-- `setupBranchTable()`: the object `bt` with keys `ADD, CMP, HLT, JEQ,
JMP, JNE, LDI, MUL, POP, PRN, PUSH` (and no key for `CALL`); property
lookup on a missing key yields `none` (JS `undefined`). -/
def branchTable (ir : Int) : Option Handler :=
  if ir = ADD then some Handler.ADD
  else if ir = CMP then some Handler.CMP
  else if ir = HLT then some Handler.HLT
  else if ir = JEQ then some Handler.JEQ
  else if ir = JMP then some Handler.JMP
  else if ir = JNE then some Handler.JNE
  else if ir = LDI then some Handler.LDI
  else if ir = MUL then some Handler.MUL
  else if ir = POP then some Handler.POP
  else if ir = PRN then some Handler.PRN
  else if ir = PUSH then some Handler.PUSH
  else none

/-- `handler.call(this, operandA, operandB)`: each method receives the two
operand bytes; methods declared with fewer parameters ignore the rest. -/
def execHandler : Handler → CPU → Int → Int → CPU × Option Int
  | Handler.ADD, s, a, b => CPU.ADD s a b
  | Handler.CALL, s, a, _ => CPU.CALL s a
  | Handler.CMP, s, a, b => CPU.CMP s a b
  | Handler.HLT, s, _, _ => CPU.HLT s
  | Handler.JEQ, s, a, _ => CPU.JEQ s a
  | Handler.JMP, s, a, _ => CPU.JMP s a
  | Handler.JNE, s, a, _ => CPU.JNE s a
  | Handler.LDI, s, a, b => CPU.LDI s a b
  | Handler.MUL, s, a, b => CPU.MUL s a b
  | Handler.POP, s, a, _ => CPU.POP s a
  | Handler.PRN, s, a, _ => CPU.PRN s a
  | Handler.PUSH, s, a, _ => CPU.PUSH s a

/-- `tick()`: fetch `IR := ram.read(PC)`; look the opcode up in the branch
table; on a miss, `console.error('Unknown opcode', IR)` and `stopClock()`;
otherwise read the two operand bytes, invoke the handler, and update `PC`:
the default advance is `PC += ((IR >> 6) & 0b11) + 1`, while the branch for
a returned jump target executes `this.reg.PC = nextPC` — an undeclared
identifier (the variable is `nextPc`) — and therefore throws a
`ReferenceError` with `PC` left unchanged. -/
def tick (s0 : CPU) : CPU × Option JsError :=
  let s := { s0 with IR := s0.ram s0.PC }
  match branchTable s.IR with
  | none =>
      (stopClock { s with errLog := s.errLog ++ [("Unknown opcode", s.IR)] }, none)
  | some h =>
      let operandA := s.ram (s.PC + 1)
      let operandB := s.ram (s.PC + 2)
      let r := execHandler h s operandA operandB
      if r.2 = none then
        ({ r.1 with PC := r.1.PC + (Int.land (r.1.IR >>> (6 : Int)) 0b11 + 1) }, none)
      else
        (r.1, some JsError.referenceErrorNextPC)

/-! ### Concrete machine states used by the closed theorems -/

/-- A machine whose program is the single instruction `JMP R0`, with
`reg[0] = 5`. -/
def sJmp : CPU :=
  { construct (fun a => if a = 0 then 80 else 0) with reg := updateFn (fun _ => 0) 0 5 }

/-- A machine whose program is the single instruction `LDI R0, 42`. -/
def sLdi : CPU :=
  construct (fun a => if a = 0 then 153 else if a = 1 then 0 else if a = 2 then 42 else 0)

/-- A machine about to execute `JEQ R0` with `reg[0] = 9` and `FL = 0b001`,
i.e. exactly the EQ flag set (the value `setFlag` leaves after a `CMP` of
two equal values). -/
def sJeq : CPU :=
  { construct (fun a => if a = 0 then 81 else 0) with
      reg := updateFn (fun _ => 0) 0 9, FL := 1 }

/-- A machine about to execute `PUSH R0` then `POP R7`, with `reg[0] = 42`
and the stack pointer `reg[7] = 100`. -/
def sPP : CPU :=
  { construct (fun a => if a = 0 then 77 else if a = 1 then 0
      else if a = 2 then 76 else if a = 3 then 7 else 0) with
    reg := updateFn (updateFn (fun _ => 0) 0 42) 7 100 }

/-- A machine about to execute `PUSH R0` then `POP R1`, with `reg[0] = 42`
and the stack pointer `reg[7] = 100`. -/
def sPP1 : CPU :=
  { construct (fun a => if a = 0 then 77 else if a = 1 then 0
      else if a = 2 then 76 else if a = 3 then 1 else 0) with
    reg := updateFn (updateFn (fun _ => 0) 0 42) 7 100 }

/-- A machine whose `PC` is 5 and whose byte at address 5 is the unmapped
opcode 99. -/
def sInv : CPU :=
  { construct (fun a => if a = 5 then 99 else 0) with PC := 5 }

/-- A machine with `PC = 10`, `reg[3] = 55` and stack pointer
`reg[7] = 100`, used to exercise the `CALL` handler directly. -/
def sCall : CPU :=
  { construct (fun _ => 0) with PC := 10, reg := updateFn (updateFn (fun _ => 0) 3 55) 7 100 }

/-- A machine with `reg[0] = 200` and `reg[1] = 100`, used to exercise the
ALU arithmetic. -/
def sAdd : CPU :=
  { construct (fun _ => 0) with reg := updateFn (updateFn (fun _ => 0) 0 200) 1 100 }

/-! ### Small evaluation lemmas for flag bits -/

theorem tb_one_zero : Int.testBit 1 0 = true := by decide

theorem tb_one_one : Int.testBit 1 1 = false := by decide

theorem tb_one_two : Int.testBit 1 2 = false := by decide

theorem tb_two_zero : Int.testBit 2 0 = false := by decide

theorem tb_two_one : Int.testBit 2 1 = true := by decide

theorem tb_two_two : Int.testBit 2 2 = false := by decide

theorem tb_four_zero : Int.testBit 4 0 = false := by decide

theorem tb_four_one : Int.testBit 4 1 = false := by decide

theorem tb_four_two : Int.testBit 4 2 = true := by decide

/-! ### Claims -/

/-- C1: when the fetched opcode has a dispatch-table entry and the handler
returns no jump target, `PC` advances by `((IR >> 6) & 0b11) + 1` — shown
here for `LDI R0, 42` at address 0, which advances `PC` to 3.  But when the
handler does return a jump target, `PC` is NOT set to that address: the
source assigns from the undeclared identifier `nextPC` (the declared
variable is `nextPc`), so `tick` throws a `ReferenceError` and `PC` is left
unchanged — shown for `JMP R0` with `reg[0] = 5`, after which `PC` is still
0, not 5. -/
theorem tick_default_advance_and_nextPC_referenceError :
    ((tick sLdi).2 = none ∧ (tick sLdi).1.PC = 3 ∧ (tick sLdi).1.reg 0 = 42) ∧
    ((tick sJmp).2 = some JsError.referenceErrorNextPC ∧
      (tick sJmp).1.PC = 0 ∧ sJmp.reg 0 = 5) := by
  exact ⟨⟨by decide, by decide, by decide⟩, by decide, by decide, by decide⟩

/-- C2: `JEQ`/`JNE` do not test the EQ flag.  `getFlag` treats its argument
as a bit position, but is called with the mask `FL_EQ = 1`, so it reads bit
1 of `FL` — the GT position as laid down by `setFlag`.  With `FL = 0b001`
(exactly the EQ flag set, `Int.testBit FL 0 = true`), `getFlag FL_EQ`
returns 0, `JEQ` returns no jump target and the full cycle advances `PC` by
the default 2 instead of jumping to `reg[0] = 9`, while `JNE` does return
the jump target 9; with `FL = 0b010` (only GT set), `JEQ` returns the jump
target although EQ is clear. -/
theorem jeq_jne_read_wrong_flag_bit :
    sJeq.FL = FL_EQ ∧ Int.testBit sJeq.FL 0 = true ∧ getFlag sJeq FL_EQ = 0 ∧
    (CPU.JEQ sJeq 0).2 = none ∧
    (tick sJeq).1.PC = 2 ∧ (tick sJeq).2 = none ∧
    (CPU.JNE sJeq 0).2 = some 9 ∧
    (CPU.JEQ { sJeq with FL := 2 } 0).2 = some 9 := by
  exact ⟨by decide, by decide, by decide, by decide, by decide, by decide, by decide, by decide⟩

/-- C3 counterexample: at construction register 7 (the stack pointer) holds
0, exactly like every general-purpose register — it is not initialized to a
high memory address reserved as the empty-stack top. -/
theorem construct_sp_register_zero :
    (construct (fun _ => 0)).reg SP = 0 ∧
    (construct (fun _ => 0)).reg SP = (construct (fun _ => 0)).reg 0 := by
  exact ⟨rfl, rfl⟩

/-- C3 (amended): at CPU construction all eight registers — including
register 7, the stack pointer — and the special registers `PC`, `IR`, `FL`
are zero. -/
theorem construct_registers_all_zero (ram : Int → Int) :
    (∀ i : Int, (construct ram).reg i = 0) ∧
    (construct ram).PC = 0 ∧ (construct ram).IR = 0 ∧ (construct ram).FL = 0 :=
  ⟨fun _ => rfl, rfl, rfl, rfl⟩

/-- C4 counterexample: the ALU does not wrap at the 8-bit register width.
With `reg[0] = 200` and `reg[1] = 100`, `ADD` leaves `reg[0] = 300`,
whereas `(200 + 100) % 2^8 = 44`, and `300 ≠ 44`. -/
theorem alu_add_no_byte_wrap :
    (alu sAdd "ADD" 0 1).reg 0 = 300 ∧
    ((200 + 100) % 2 ^ 8 : Int) = 44 ∧ (300 : Int) ≠ 44 := by
  exact ⟨by decide, by decide, by decide⟩

/-- C4 (amended): for distinct register indices, ALU `ADD` (resp. `MUL`)
sets `reg[regA]` to exactly `a + b` (resp. `a * b`) as JavaScript number
arithmetic — with no modular reduction — and leaves `reg[regB]`
unchanged. -/
theorem alu_add_mul_exact_arith (s : CPU) (regA regB : Int) (h : regA ≠ regB) :
    (alu s "ADD" regA regB).reg regA = s.reg regA + s.reg regB ∧
    (alu s "ADD" regA regB).reg regB = s.reg regB ∧
    (alu s "MUL" regA regB).reg regA = s.reg regA * s.reg regB ∧
    (alu s "MUL" regA regB).reg regB = s.reg regB := by
  refine ⟨?_, ?_, ?_, ?_⟩ <;> simp [alu, updateFn, Ne.symm h]

/-- C4 witness: the amended statement applied to the concrete state with
`reg[0] = 200`, `reg[1] = 100`. -/
theorem alu_add_mul_exact_arith_witness :
    (alu sAdd "ADD" 0 1).reg 0 = sAdd.reg 0 + sAdd.reg 1 ∧
    (alu sAdd "ADD" 0 1).reg 1 = sAdd.reg 1 ∧
    (alu sAdd "MUL" 0 1).reg 0 = sAdd.reg 0 * sAdd.reg 1 ∧
    (alu sAdd "MUL" 0 1).reg 1 = sAdd.reg 1 :=
  alu_add_mul_exact_arith sAdd 0 1 (by decide)

set_option maxRecDepth 4096 in
/-- C5: no opcode byte (0–255) has a dispatch-table entry that invokes the
`CALL` handler — the source defines no `CALL` opcode constant and
`setupBranchTable` registers no entry for it — so `CALL` is unreachable
from the instruction cycle.  The handler itself, invoked directly, does
push `PC + 2` (here `12` at the decremented stack address 99) and does
return `reg[regNum]` (here 55) as the proposed jump target. -/
theorem call_never_dispatched :
    ((List.range 256).all fun b => decide (branchTable (b : Int) ≠ some Handler.CALL)) = true ∧
    (CPU.CALL sCall 3).2 = some 55 ∧
    (CPU.CALL sCall 3).1.ram 99 = 12 ∧
    (CPU.CALL sCall 3).1.reg SP = 99 := by
  exact ⟨by decide, by decide, by decide, by decide⟩

/-- C6 counterexample: on the unmapped opcode 99 fetched at address 5, the
`console.error` report is exactly `('Unknown opcode', 99)`: it carries the
opcode value but not the address 5 at which it was fetched. -/
theorem invalid_opcode_report_no_address :
    (tick sInv).1.errLog = [("Unknown opcode", 99)] ∧
    ((tick sInv).1.errLog.all fun e => decide (e.2 ≠ sInv.PC)) = true ∧
    sInv.PC = 5 := by
  exact ⟨by decide, by decide, by decide⟩

/-- C6 (amended): whenever the fetched opcode has no dispatch-table entry,
`tick` stores the opcode in `IR`, logs `('Unknown opcode', IR)` — the
opcode value only, not the fetch address — stops the clock, raises no
error, and leaves `PC` (and all registers) unchanged. -/
theorem tick_unknown_opcode_halts (s : CPU) (h : branchTable (s.ram s.PC) = none) :
    tick s = (stopClock
      { s with
          IR := s.ram s.PC
          errLog := s.errLog ++ [("Unknown opcode", s.ram s.PC)] }, none) := by
  unfold tick
  dsimp only
  rw [h]

/-- C7: after `alu 'CMP' regA regB`, whatever the prior `FL` value, bit 0
of `FL` (the `FL_EQ` position) is set iff the register values are equal,
bit 1 (`FL_GT`) iff `reg[regA] > reg[regB]`, bit 2 (`FL_LT`) iff
`reg[regA] < reg[regB]`; exactly one of the three bits is set; and the
register file is untouched. -/
theorem cmp_sets_exactly_one_flag (s : CPU) (regA regB : Int) :
    ((alu s "CMP" regA regB).FL.testBit 0 = decide (s.reg regA = s.reg regB)) ∧
    ((alu s "CMP" regA regB).FL.testBit 1 = decide (s.reg regA > s.reg regB)) ∧
    ((alu s "CMP" regA regB).FL.testBit 2 = decide (s.reg regA < s.reg regB)) ∧
    (((alu s "CMP" regA regB).FL.testBit 0 = true ∧
        (alu s "CMP" regA regB).FL.testBit 1 = false ∧
        (alu s "CMP" regA regB).FL.testBit 2 = false) ∨
      ((alu s "CMP" regA regB).FL.testBit 0 = false ∧
        (alu s "CMP" regA regB).FL.testBit 1 = true ∧
        (alu s "CMP" regA regB).FL.testBit 2 = false) ∨
      ((alu s "CMP" regA regB).FL.testBit 0 = false ∧
        (alu s "CMP" regA regB).FL.testBit 1 = false ∧
        (alu s "CMP" regA regB).FL.testBit 2 = true)) ∧
    (alu s "CMP" regA regB).reg = s.reg := by
  rcases lt_trichotomy (s.reg regA) (s.reg regB) with h | h | h
  · have h1 : ¬ s.reg regA = s.reg regB := h.ne
    have h2 : ¬ s.reg regB < s.reg regA := lt_asymm h
    refine ⟨?_, ?_, ?_, ?_, ?_⟩ <;>
      simp [alu, setFlag, FL_EQ, FL_GT, FL_LT, h, h1, h2, gt_iff_lt,
        Int.testBit_lor, Int.testBit_land, Int.testBit_lnot,
        tb_one_zero, tb_one_one, tb_one_two, tb_two_zero, tb_two_one, tb_two_two,
        tb_four_zero, tb_four_one, tb_four_two]
  · have h2 : ¬ s.reg regB < s.reg regB := lt_irrefl _
    refine ⟨?_, ?_, ?_, ?_, ?_⟩ <;>
      simp [alu, setFlag, FL_EQ, FL_GT, FL_LT, h, h2, gt_iff_lt,
        Int.testBit_lor, Int.testBit_land, Int.testBit_lnot,
        tb_one_zero, tb_one_one, tb_one_two, tb_two_zero, tb_two_one, tb_two_two,
        tb_four_zero, tb_four_one, tb_four_two]
  · have h1 : ¬ s.reg regA = s.reg regB := (h.ne).symm
    have h2 : ¬ s.reg regA < s.reg regB := lt_asymm h
    refine ⟨?_, ?_, ?_, ?_, ?_⟩ <;>
      simp [alu, setFlag, FL_EQ, FL_GT, FL_LT, h, h1, h2, gt_iff_lt,
        Int.testBit_lor, Int.testBit_land, Int.testBit_lnot,
        tb_one_zero, tb_one_one, tb_one_two, tb_two_zero, tb_two_one, tb_two_two,
        tb_four_zero, tb_four_one, tb_four_two]

/-- Characterization of one full cycle executing `PUSH`: the fetched
opcode goes to `IR`, the stack pointer is decremented, the pushed register
value is written at the new stack address, and `PC` advances by the default
2 (`((0b01001101 >> 6) & 0b11) + 1`). -/
theorem tick_push_eq (s : CPU) (h : s.ram s.PC = PUSH) :
    tick s = ({ s with
        IR := PUSH
        reg := updateFn s.reg SP (s.reg SP - 1)
        ram := updateFn s.ram (s.reg SP - 1) (s.reg (s.ram (s.PC + 1)))
        PC := s.PC + 2 }, none) := by
  unfold tick
  dsimp only
  rw [h, show branchTable PUSH = some Handler.PUSH from by decide]
  simp [execHandler, CPU.PUSH, pushHelper, updateFn,
    show Int.land (PUSH >>> (6 : Int)) 3 + 1 = 2 from by decide]

/-- Characterization of one full cycle executing `POP`: the value at the
stack address is read, the stack pointer register is incremented, the value
is stored into the operand register, and `PC` advances by the default 2. -/
theorem tick_pop_eq (s : CPU) (h : s.ram s.PC = POP) :
    tick s = ({ s with
        IR := POP
        reg := updateFn (updateFn s.reg SP (s.reg SP + 1)) (s.ram (s.PC + 1)) (s.ram (s.reg SP))
        PC := s.PC + 2 }, none) := by
  unfold tick
  dsimp only
  rw [h, show branchTable POP = some Handler.POP from by decide]
  simp [execHandler, CPU.POP, popHelper,
    show Int.land (POP >>> (6 : Int)) 3 + 1 = 2 from by decide]

/-- C8 counterexample: the claim fails when the pop target is register 7,
the stack pointer itself.  Running `PUSH R0; POP R7` with `reg[0] = 42` and
`SP = 100` leaves `reg[7] = 42`: the `POP` assignment overwrites the
just-incremented stack pointer with the popped value, so `SP` does not
return to its pre-push value 100. -/
theorem pop_into_sp_breaks_sp_restore :
    (tick (tick sPP).1).1.reg SP = 42 ∧ sPP.reg SP = 100 ∧ (42 : Int) ≠ 100 := by
  exact ⟨by decide, by decide, by decide⟩

/-- C8 (amended): for register indices `r` and `r2` with `r2 ≠ 7` (popping
into the stack-pointer register overwrites `SP` with the popped value),
executing `PUSH r` immediately followed by `POP r2` — the hypotheses pin
the bytes actually fetched for each of the two cycles — leaves `reg[r2]`
equal to the original `reg[r]` and restores `reg[7]` to its pre-push
value. -/
theorem push_pop_roundtrip (s : CPU) (r r2 : Int) (h7 : r2 ≠ SP)
    (hpush : s.ram s.PC = PUSH) (hra : s.ram (s.PC + 1) = r)
    (hpop : (tick s).1.ram ((tick s).1.PC) = POP)
    (hrb : (tick s).1.ram ((tick s).1.PC + 1) = r2) :
    (tick (tick s).1).1.reg r2 = s.reg r ∧ (tick (tick s).1).1.reg SP = s.reg SP := by
  rw [tick_push_eq s hpush] at hpop hrb ⊢
  dsimp only at hpop hrb ⊢
  rw [tick_pop_eq _ hpop]
  dsimp only
  rw [hrb]
  refine ⟨?_, ?_⟩ <;> simp [updateFn, hra, Ne.symm h7]

/-- C8 witness: the amended statement applied to `PUSH R0; POP R1` with
`reg[0] = 42` and `SP = 100`. -/
theorem push_pop_roundtrip_witness :
    (tick (tick sPP1).1).1.reg 1 = sPP1.reg 0 ∧
    (tick (tick sPP1).1).1.reg SP = sPP1.reg SP :=
  push_pop_roundtrip sPP1 0 1 (by decide) (by decide) (by decide) (by decide) (by decide)

/-- C9: `alu` with any operation name other than `ADD`, `MUL`, `AND`,
`CMP` falls through the switch and is a silent no-op: the whole state —
registers, flags, and everything else — is returned unchanged and no error
is raised. -/
theorem alu_unknown_op_noop (s : CPU) (op : String) (regA regB : Int)
    (h1 : op ≠ "ADD") (h2 : op ≠ "MUL") (h3 : op ≠ "AND") (h4 : op ≠ "CMP") :
    alu s op regA regB = s := by
  unfold alu
  split <;> simp_all

/-- C9 witness: the unknown operation `SUB` applied to a freshly
constructed CPU leaves it unchanged. -/
theorem alu_unknown_op_noop_witness :
    alu (construct fun _ => 0) "SUB" 0 1 = construct (fun _ => 0) :=
  alu_unknown_op_noop (construct fun _ => 0) "SUB" 0 1
    (by decide) (by decide) (by decide) (by decide)

set_option maxRecDepth 8192 in
set_option maxHeartbeats 1600000 in
/-- C10: over every opcode byte 0–255, the branch table built by
`setupBranchTable` has exactly the eleven entries `HLT ↦ HLT`,
`ADD ↦ ADD`, `LDI ↦ LDI`, `MUL ↦ MUL`, `PRN ↦ PRN`, `PUSH ↦ PUSH`,
`POP ↦ POP`, `CMP ↦ CMP`, `JEQ ↦ JEQ`, `JMP ↦ JMP`, `JNE ↦ JNE`, and every
other byte is unmapped; moreover no opcode value at all — the table is a
fixed function, built once at construction — maps to the `CALL` handler. -/
theorem branchTable_exactly_eleven_entries :
    ((List.range 256).all fun b => decide (branchTable (b : Int) =
      if b = 1 then some Handler.HLT
      else if b = 168 then some Handler.ADD
      else if b = 153 then some Handler.LDI
      else if b = 170 then some Handler.MUL
      else if b = 67 then some Handler.PRN
      else if b = 77 then some Handler.PUSH
      else if b = 76 then some Handler.POP
      else if b = 160 then some Handler.CMP
      else if b = 81 then some Handler.JEQ
      else if b = 80 then some Handler.JMP
      else if b = 82 then some Handler.JNE
      else none)) = true ∧
    ∀ ir : Int, branchTable ir ≠ some Handler.CALL := by
  refine ⟨by decide, ?_⟩
  intro ir h
  unfold branchTable at h
  split_ifs at h <;> simp_all

/-- C6 witness: the amended statement applied to the machine fetching
opcode 99 at address 5. -/
theorem tick_unknown_opcode_halts_witness :
    tick sInv = (stopClock
      { sInv with
          IR := 99
          errLog := [("Unknown opcode", 99)] }, none) :=
  tick_unknown_opcode_halts sInv (by decide)

end LS8
